import Mathlib

/-!
Shallow embedding of the BrowserGPT agent control-loop logic
(`agent.py`, `agentV2.py`) and proofs about it.

Python strings are modelled as Lean `String` (a list of Unicode code
points, matching Python `str` indexing/slicing semantics for the
operations used here).  Python `int` is modelled as `Int`; the
confidence and progress-percentage floats, which are only ever literal
constants or a single exact division, are modelled as `Rat`.
-/

namespace BrowserGPT

/-- Python `str.lower()` (the keyword lists scanned are ASCII, where
`Char.toLower` agrees with Python). -/
def pyLower (s : String) : String := ⟨s.toList.map Char.toLower⟩

/-- `containsList needle hay` holds when `needle` occurs as a contiguous
sub-list of `hay`. -/
def containsList (needle : List Char) : List Char → Bool
  | [] => needle.isEmpty
  | a :: rest => needle.isPrefixOf (a :: rest) || containsList needle rest

/-- Python `needle in hay` for strings: contiguous-substring test. -/
def pyIn (needle hay : String) : Bool := containsList needle.toList hay.toList

/-- Python `s.startswith(pre)`. -/
def pyStartswith (s pre : String) : Bool := pre.toList.isPrefixOf s.toList

/-- Python `s[:n]` (slice of the first `n` code points). -/
def pySlice (s : String) (n : Nat) : String := ⟨s.toList.take n⟩

/-- Python `s.strip()` over the whitespace characters that occur in the
repository's data (space, tab, CR, LF). -/
def pyStrip (s : String) : String :=
  ⟨((s.toList.dropWhile Char.isWhitespace).reverse.dropWhile Char.isWhitespace).reverse⟩

/-- Python `l[-n:]`: the last `n` elements (the whole list when shorter). -/
def lastN (n : Nat) (l : List α) : List α := l.drop (l.length - n)

/-- `replaceAll pat rep l` replaces every non-overlapping occurrence of
`pat` in `l` by `rep`, scanning left to right (Python `str.replace` for a
non-empty pattern; the empty pattern, which the repository never passes,
is treated as a no-op here). -/
def replaceAll (pat rep : List Char) : List Char → List Char
  | [] => []
  | c :: rest =>
    if pat ≠ [] ∧ pat.isPrefixOf (c :: rest) then
      rep ++ replaceAll pat rep ((c :: rest).drop pat.length)
    else
      c :: replaceAll pat rep rest
termination_by l => l.length
decreasing_by
· rename_i h
  simp only [List.length_drop]
  have hp : 0 < pat.length := List.length_pos.mpr h.1
  simp only [List.length_cons]
  omega
· simp

/-- Python `s.replace(pat, rep)` (all occurrences). -/
def pyReplace (s pat rep : String) : String := ⟨replaceAll pat.toList rep.toList s.toList⟩

/-- Worker for `pySplitlines`: splits on `\r\n`, `\r` and `\n`, with no
entry for a trailing line terminator (Python `str.splitlines`, restricted
to the universal newline characters that occur in the repository's data). -/
def splitlinesChars : List Char → List Char → List (List Char)
  | [], acc => if acc.isEmpty then [] else [acc.reverse]
  | '\r' :: '\n' :: rest, acc => acc.reverse :: splitlinesChars rest []
  | '\r' :: rest, acc => acc.reverse :: splitlinesChars rest []
  | '\n' :: rest, acc => acc.reverse :: splitlinesChars rest []
  | c :: rest, acc => splitlinesChars rest (c :: acc)

/-- Python `s.splitlines()`. -/
def pySplitlines (s : String) : List String :=
  (splitlinesChars s.toList []).map (fun l => ⟨l⟩)

/-! ### SHA-256 (the `hashlib.sha256(...).hexdigest()` used by `_hash_text`)

Bytes and 32-bit words are `Nat` values kept below `2^8` / `2^32` by
explicit `%` reductions. -/

/-- Right-rotation of a 32-bit word. -/
def rotr32 (n x : Nat) : Nat := ((x >>> n) ||| (x <<< (32 - n))) % 4294967296

/-- The 64 SHA-256 round constants. -/
def sha256K : List Nat :=
  [1116352408, 1899447441, 3049323471, 3921009573, 961987163, 1508970993,
   2453635748, 2870763221, 3624381080, 310598401, 607225278, 1426881987,
   1925078388, 2162078206, 2614888103, 3248222580, 3835390401, 4022224774,
   264347078, 604807628, 770255983, 1249150122, 1555081692, 1996064986,
   2554220882, 2821834349, 2952996808, 3210313671, 3336571891, 3584528711,
   113926993, 338241895, 666307205, 773529912, 1294757372, 1396182291,
   1695183700, 1986661051, 2177026350, 2456956037, 2730485921, 2820302411,
   3259730800, 3345764771, 3516065817, 3600352804, 4094571909, 275423344,
   430227734, 506948616, 659060556, 883997877, 958139571, 1322822218,
   1537002063, 1747873779, 1955562222, 2024104815, 2227730452, 2361852424,
   2428436474, 2756734187, 3204031479, 3329325298]

/-- The initial SHA-256 hash state. -/
def sha256InitH : List Nat :=
  [1779033703, 3144134277, 1013904242, 2773480762, 1359893119, 2600822924,
   528734635, 1541459225]

/-- SHA-256 padding: append `0x80`, zeros, then the 64-bit big-endian bit
length, reaching a multiple of 64 bytes. -/
def sha256Pad (msg : List Nat) : List Nat :=
  let L := msg.length
  let padLen := (64 - ((L + 9) % 64)) % 64
  let lenBits := (8 * L) % (2 ^ 64)
  msg ++ [0x80] ++ List.replicate padLen 0 ++
    (List.range 8).map (fun i => (lenBits >>> (8 * (7 - i))) % 256)

/-- Split a byte list into 64-byte blocks. -/
def toBlocks (l : List Nat) : List (List Nat) :=
  if h : l = [] then [] else l.take 64 :: toBlocks (l.drop 64)
termination_by l.length
decreasing_by
  simp only [List.length_drop]
  have := List.length_pos.mpr h
  omega

/-- Interpret a 64-byte block as 16 big-endian 32-bit words. -/
def bytesToWords (block : List Nat) : List Nat :=
  (List.range 16).map (fun i =>
    block.getD (4 * i) 0 * 16777216 + block.getD (4 * i + 1) 0 * 65536 +
      block.getD (4 * i + 2) 0 * 256 + block.getD (4 * i + 3) 0)

/-- One message-schedule extension step (appends word `w.length`). -/
def scheduleStep (w : List Nat) : List Nat :=
  let i := w.length
  let w15 := w.getD (i - 15) 0
  let w2 := w.getD (i - 2) 0
  let s0 := rotr32 7 w15 ^^^ rotr32 18 w15 ^^^ (w15 >>> 3)
  let s1 := rotr32 17 w2 ^^^ rotr32 19 w2 ^^^ (w2 >>> 10)
  w ++ [(w.getD (i - 16) 0 + s0 + w.getD (i - 7) 0 + s1) % 4294967296]

/-- Extend 16 schedule words to 64. -/
def msgSchedule (w : List Nat) : List Nat :=
  (List.range 48).foldl (fun acc _ => scheduleStep acc) w

/-- One SHA-256 compression round; the state is the 8-word working vector. -/
def compressStep (st : List Nat) (kw : Nat × Nat) : List Nat :=
  match st with
  | [a, b, c, d, e, f, g, h] =>
    let S1 := rotr32 6 e ^^^ rotr32 11 e ^^^ rotr32 25 e
    let ch := (e &&& f) ^^^ ((e ^^^ 4294967295) &&& g)
    let temp1 := (h + S1 + ch + kw.1 + kw.2) % 4294967296
    let S0 := rotr32 2 a ^^^ rotr32 13 a ^^^ rotr32 22 a
    let maj := (a &&& b) ^^^ (a &&& c) ^^^ (b &&& c)
    let temp2 := (S0 + maj) % 4294967296
    [(temp1 + temp2) % 4294967296, a, b, c, (d + temp1) % 4294967296, e, f, g]
  | other => other

/-- Compress one 64-byte block into the hash state. -/
def processBlock (hs : List Nat) (block : List Nat) : List Nat :=
  let w := msgSchedule (bytesToWords block)
  let v := (sha256K.zip w).foldl compressStep hs
  (hs.zip v).map (fun p => (p.1 + p.2) % 4294967296)

/-- SHA-256 of a byte list, as eight 32-bit words. -/
def sha256Words (msg : List Nat) : List Nat :=
  (toBlocks (sha256Pad msg)).foldl processBlock sha256InitH

/-- Lower-case hex digit. -/
def hexDigit (n : Nat) : Char := "0123456789abcdef".toList.getD n '0'

/-- Eight hex digits of a 32-bit word, most significant first. -/
def word32Hex (x : Nat) : List Char :=
  (List.range 8).map (fun i => hexDigit ((x >>> (4 * (7 - i))) &&& 15))

/-- `hexdigest()`: SHA-256 of a byte list as a 64-character hex string. -/
def sha256Hex (msg : List Nat) : String :=
  ⟨((sha256Words msg).map word32Hex).flatten⟩

/-- UTF-8 encoding of one Unicode scalar value. -/
def utf8Char (c : Char) : List Nat :=
  let n := c.toNat
  if n < 128 then [n]
  else if n < 2048 then [192 ||| (n >>> 6), 128 ||| (n &&& 63)]
  else if n < 65536 then
    [224 ||| (n >>> 12), 128 ||| ((n >>> 6) &&& 63), 128 ||| (n &&& 63)]
  else
    [240 ||| (n >>> 18), 128 ||| ((n >>> 12) &&& 63), 128 ||| ((n >>> 6) &&& 63), 128 ||| (n &&& 63)]

/-- Python `text.encode("utf-8", errors="ignore")` (every Lean `Char` is a
valid scalar value, so nothing is ever ignored). -/
def utf8Bytes (s : String) : List Nat := (s.toList.map utf8Char).flatten

/-- `_hash_text` from `agentV2.py`:
`hashlib.sha256(text.encode("utf-8", errors="ignore")).hexdigest()`. -/
def hash_text (text : String) : String := sha256Hex (utf8Bytes text)

/-! ### Observation module (`observe_browser_state`, agentV2.py) -/

/-- The observation dictionary built by `observe_browser_state`
(`BrowserObservation` in agentV2.py). -/
structure Observation where
  url : String
  title : String
  content_hash : String
  content_preview : String
  changed : Bool
  change_reason : String
deriving DecidableEq, Repr

/-- `observe_browser_state` from agentV2.py.  A `None` (or empty, hence
falsy) previous observation is modelled as `Option.none`. -/
def observe_browser_state (page_content : String) (last_observation : Option Observation) :
    Observation :=
  let content := page_content
  let urlTitle := (pySplitlines content).foldl
    (fun (p : String × String) line =>
      if pyStartswith line "URL:" then (pyStrip (pyReplace line "URL:" ""), p.2)
      else if pyStartswith line "Title:" then (p.1, pyStrip (pyReplace line "Title:" ""))
      else p)
    ("", "")
  let url := if urlTitle.1 = "" then "unknown" else urlTitle.1
  let title := if urlTitle.2 = "" then "unknown" else urlTitle.2
  let normalized_content := pySlice content 3000
  let content_hash := hash_text normalized_content
  let cr : Bool × String :=
    match last_observation with
    | none => (false, "initial observation")
    | some lo =>
      if content_hash ≠ lo.content_hash then (true, "page content changed")
      else if url ≠ lo.url then (true, "URL changed")
      else if title ≠ lo.title then (true, "title changed")
      else (false, "no significant change")
  { url := url
    title := title
    content_hash := content_hash
    content_preview := pySlice normalized_content 500
    changed := cr.1
    change_reason := cr.2 }

/-! ### Progress Tracker (`progress_checker` and `track_progress`, agentV2.py) -/

/-- The `ProgressDecision` dictionary returned by `progress_checker`. -/
structure ProgressDecision where
  decision : String
  reason : String
  confidence : ℚ
deriving DecidableEq, Repr

/-- Default `success_keywords` list of `progress_checker`. -/
def defaultSuccessKeywords : List String :=
  ["success", "completed", "results", "thank you", "welcome", "dashboard"]

/-- Python `success_keywords or [...]`: `None` and the empty list are
falsy and give the default list. -/
def effectiveKeywords (kws : Option (List String)) : List String :=
  match kws with
  | none => defaultSuccessKeywords
  | some l => if l.isEmpty then defaultSuccessKeywords else l

/-- `progress_checker` from agentV2.py.  `steps` and `max_steps` are the
`state.get("steps", 0)` / `state.get("max_steps", 1)` values,
`all_actions` is `state.get("all_actions", [])`.  The float division in
the low-budget rule is modelled as exact rational division (total in
Lean; `progress_checkerChecked` tracks where Python would divide). -/
def progress_checker (steps max_steps : Int) (all_actions : List String)
    (observation : Observation) (success_keywords : Option (List String)) : ProgressDecision :=
  let ks := effectiveKeywords success_keywords
  let actions := all_actions
  if steps ≥ max_steps then
    ⟨"finish", "Maximum step limit reached", 0.95⟩
  else
    let content_preview := pyLower observation.content_preview
    match ks.find? (fun kw => pyIn kw content_preview) with
    | some kw => ⟨"finish", "Detected success signal: \x27" ++ kw ++ "\x27", 0.9⟩
    | none =>
      if !observation.changed then
        ⟨"retry", "Page did not change after action", 0.7⟩
      else if 3 ≤ actions.length ∧ (lastN 3 actions).dedup.length = 1 then
        ⟨"replan", "Repeated identical actions with no success", 0.85⟩
      else if ((max_steps - steps : Int) : ℚ) / ((max_steps : Int) : ℚ) < 0.15 then
        ⟨"replan", "Low remaining steps, replanning required", 0.6⟩
      else
        ⟨"continue", "Progress appears normal", 0.8⟩

/-- `progress_checker` with the low-budget division guarded: `none` marks
the one place where Python evaluates `(max_steps - steps) / max_steps`
with `max_steps = 0` and would raise `ZeroDivisionError`. -/
def progress_checkerChecked (steps max_steps : Int) (all_actions : List String)
    (observation : Observation) (success_keywords : Option (List String)) :
    Option ProgressDecision :=
  let ks := effectiveKeywords success_keywords
  let actions := all_actions
  if steps ≥ max_steps then
    some ⟨"finish", "Maximum step limit reached", 0.95⟩
  else
    let content_preview := pyLower observation.content_preview
    match ks.find? (fun kw => pyIn kw content_preview) with
    | some kw => some ⟨"finish", "Detected success signal: \x27" ++ kw ++ "\x27", 0.9⟩
    | none =>
      if !observation.changed then
        some ⟨"retry", "Page did not change after action", 0.7⟩
      else if 3 ≤ actions.length ∧ (lastN 3 actions).dedup.length = 1 then
        some ⟨"replan", "Repeated identical actions with no success", 0.85⟩
      else if max_steps = 0 then
        none
      else if ((max_steps - steps : Int) : ℚ) / ((max_steps : Int) : ℚ) < 0.15 then
        some ⟨"replan", "Low remaining steps, replanning required", 0.6⟩
      else
        some ⟨"continue", "Progress appears normal", 0.8⟩

/-- The `ProgressStatus` dictionary returned by `track_progress`. -/
structure ProgressStatus where
  status : String
  reason : String
  progress_pct : ℚ
  should_stop : Bool
deriving DecidableEq, Repr

/-- `track_progress` from agentV2.py.  The `Counter`-based loop check
`any(count >= 3 for count in counts.values())` is rendered as: some
element of the last four actions occurs at least three times among them. -/
def track_progress (steps max_steps : Int) (all_actions : List String) : ProgressStatus :=
  let actions := all_actions
  let progress_pct : ℚ := min (((steps : ℚ) / (max_steps : ℚ)) * 100) 100
  if steps ≥ max_steps then
    ⟨"finish", "Maximum steps reached", progress_pct, true⟩
  else if 4 ≤ actions.length ∧
      (lastN 4 actions).any (fun a => 3 ≤ (lastN 4 actions).count a) then
    ⟨"retry", "Agent is repeating the same action", progress_pct, false⟩
  else if 3 ≤ actions.length ∧
      (actions.getD (actions.length - 1) "" = actions.getD (actions.length - 2) "" ∧
        actions.getD (actions.length - 2) "" = actions.getD (actions.length - 3) "") then
    ⟨"retry", "No visible progress detected", progress_pct, false⟩
  else
    ⟨"continue", "Agent progressing normally", progress_pct, false⟩

/-! ### Action Selector (`generate_next_action`, agentV2.py) -/

/-- The `GeneratedAction` dictionary. -/
structure GeneratedAction where
  tool : String
  args : String
  reason : String
deriving DecidableEq, Repr

/-- The key `f"{action['tool']}|{action['args']}"` used for the visited
set and `last_action` (the argument dictionary is modelled by its
rendered string). -/
def actionKey (tool args : String) : String := tool ++ "|" ++ args

/-- The `for action in actions` loop of `generate_next_action`: the first
candidate that is neither already executed nor a repeat of `last_action`
on an unchanged page. -/
def selectFromPlan (executed : List String) (last_action : String) (changed : Bool) :
    List (String × String) → Option (String × String)
  | [] => none
  | (t, a) :: rest =>
    let key := actionKey t a
    if executed.contains key then selectFromPlan executed last_action changed rest
    else if key == last_action && !changed then selectFromPlan executed last_action changed rest
    else some (t, a)

/-- `generate_next_action` from agentV2.py.  `actions` is the plan's
candidate list (tool, rendered args); `executed` models the Python set
built from `state.get("all_actions", [])` (membership-equivalent);
`changed` is `observation.get("changed", True)`. -/
def generate_next_action (actions : List (String × String)) (executed : List String)
    (last_action : String) (changed : Bool) : GeneratedAction :=
  if actions.isEmpty then
    ⟨"finish_task", "No remaining actions to execute", "Action plan exhausted"⟩
  else
    match selectFromPlan executed last_action changed actions with
    | some (t, a) => ⟨t, a, "Next planned action"⟩
    | none => ⟨"read_page", "", "Re-observing page state"⟩

/-! ### Action Executor wrapper (`execute_action`, agentV2.py) -/

/-- The `ExecutionResult` dictionary. -/
structure ExecutionResult where
  success : Bool
  tool : String
  args : String
  output : String
  error : Option String
deriving DecidableEq, Repr

/-- The slice of agentV2's `AgentState` that `execute_action` reads and
writes. -/
structure V2State where
  steps : Int
  last_action : String
  all_actions : List String
deriving DecidableEq, Repr

/-- `execute_action` from agentV2.py.  `tool_map` is the set of known tool
names; `env tool args` is the awaited tool coroutine, returning
`Except.error e` when the tool raises an exception `e` (caught by the
`try/except` in the source).  The outer `Except` layer is the function's
own exception channel: `Except.error` would mean `execute_action` itself
raises (a hard failure); the source never does, so every branch is
`Except.ok`. -/
def execute_action (tool args : String) (tool_map : List String)
    (env : String → String → Except String String) (state : V2State) :
    Except String (ExecutionResult × V2State) :=
  if ¬ tool_map.contains tool then
    Except.ok
      ({ success := false, tool := tool, args := args, output := ""
         error := some ("Unknown tool: " ++ tool) }, state)
  else
    let r : Bool × String × Option String :=
      match env tool args with
      | Except.ok output =>
        let success := !(pyStartswith (pyLower output) "error")
        (success, output, if success then none else some output)
      | Except.error e => (false, "", some e)
    let action_key := actionKey tool args
    let state' : V2State :=
      { steps := state.steps + 1
        last_action := action_key
        all_actions := state.all_actions ++ [action_key] }
    Except.ok
      ({ success := r.1, tool := tool, args := args, output := r.2.1, error := r.2.2 }, state')

/-! ### Result analysis and failure classification (agent.py) -/

/-- `ActionStatus` from agent.py. -/
inductive ActionStatus where
  | success
  | failure
  | blocked
  | unknown
deriving DecidableEq, Repr

/-- `FailureType` from agent.py. -/
inductive FailureType where
  | element_not_found
  | timeout
  | navigation_error
  | selector_error
  | blocked_by_captcha
  | unknown
deriving DecidableEq, Repr

/-- Success-indicator keywords of `analyze_tool_result`. -/
def successWords : List String := ["successfully", "completed", "navigated to"]

/-- Failure-indicator keywords of `analyze_tool_result`. -/
def failureWords : List String := ["error", "failed", "could not", "timeout", "not find"]

/-- Blocked-indicator keywords of `analyze_tool_result`. -/
def blockedWords : List String := ["captcha", "blocked", "access denied"]

/-- `analyze_tool_result` from agent.py. -/
def analyze_tool_result (output : String) : ActionStatus :=
  let output_lower := pyLower output
  if successWords.any (fun w => pyIn w output_lower) then ActionStatus.success
  else if failureWords.any (fun w => pyIn w output_lower) then ActionStatus.failure
  else if blockedWords.any (fun w => pyIn w output_lower) then ActionStatus.blocked
  else ActionStatus.unknown

/-- `categorize_failure` from agent.py. -/
def categorize_failure (output : String) : FailureType :=
  let output_lower := pyLower output
  if pyIn "timeout" output_lower then FailureType.timeout
  else if ["not find", "no such element"].any (fun w => pyIn w output_lower) then
    FailureType.element_not_found
  else if ["selector", "invalid selector"].any (fun w => pyIn w output_lower) then
    FailureType.selector_error
  else if pyIn "navigation" output_lower then FailureType.navigation_error
  else if pyIn "captcha" output_lower then FailureType.blocked_by_captcha
  else FailureType.unknown

/-! ### The agent.py control loop (`agent_node`, `router`, `tool_execution_node`)

The langgraph state machine is embedded as explicit state passing.  The
state keeps the fields the three nodes' control flow reads and writes;
the last message's tool calls are modelled by `last_tool_call` (`none`
when the last `AIMessage` carries no tool call).  The two external
influences — the LLM's chosen tool call and the executed tool's textual
output — are inputs consumed one pair per cycle. -/

/-- The slice of agent.py's `AgentState` driving the control flow. -/
structure GraphState where
  steps : Int
  max_steps : Int
  consecutive_failures : Int
  last_tool_call : Option String
  all_actions : List String
  successful_actions : List String
deriving DecidableEq, Repr

/-- `router` outcomes (`Literal["tools", "end"]`). -/
inductive Route where
  | tools
  | stop
deriving DecidableEq, Repr

/-- `agent_node` from agent.py, given the LLM's decision for this cycle
(`decision = none`: a response without tool calls).  Both early-return
guards append a plain message (no tool call) and do not advance
`steps`. -/
def agent_node (st : GraphState) (decision : Option String) : GraphState :=
  if st.steps ≥ st.max_steps then { st with last_tool_call := none }
  else if st.consecutive_failures ≥ 3 then { st with last_tool_call := none }
  else { st with last_tool_call := decision, steps := st.steps + 1 }

/-- `router` from agent.py. -/
def router (st : GraphState) : Route :=
  if st.steps ≥ st.max_steps then Route.stop
  else if st.consecutive_failures ≥ 3 then Route.stop
  else
    match st.last_tool_call with
    | some tool_name => if tool_name = "finish_task" then Route.stop else Route.tools
    | none => Route.stop

/-- `tool_execution_node` from agent.py, given the executed tool's output
string (the page-state bookkeeping for `read_page` is not tracked; the
claims concern the failure counter and action ledgers). -/
def tool_execution_node (st : GraphState) (output : String) : GraphState :=
  match st.last_tool_call with
  | none => st
  | some tool_name =>
    let status := analyze_tool_result output
    let consecutive_failures :=
      if status = ActionStatus.failure then st.consecutive_failures + 1 else 0
    let successful_actions :=
      if status = ActionStatus.success then st.successful_actions ++ [tool_name]
      else st.successful_actions
    { st with
      consecutive_failures := consecutive_failures
      all_actions := st.all_actions ++ [tool_name]
      successful_actions := successful_actions }

/-- Drive the compiled graph `agent → router → tools → agent → …` on a
list of per-cycle external inputs (LLM decision, tool output).  Returns
the final state and the number of actions issued to the tools node. -/
def run_graph (st : GraphState) : List (Option String × String) → GraphState × Nat
  | [] => (st, 0)
  | (decision, output) :: rest =>
    let st1 := agent_node st decision
    match router st1 with
    | Route.stop => (st1, 0)
    | Route.tools =>
      let st2 := tool_execution_node st1 output
      let r := run_graph st2 rest
      (r.1, r.2 + 1)

/-! ## Theorems -/

/-- Claim C1: for every run state with `steps >= max_steps`,
`progress_checker` returns the decision `finish` with confidence 0.95 and
the reason `"Maximum step limit reached"` (the claim quotes it
lower-cased, as the second conjunct records), regardless of the
observation, the success-keyword list, and the action history: the
step-limit rule is evaluated first. -/
theorem progress_checker_step_limit (steps max_steps : Int) (all_actions : List String)
    (observation : Observation) (success_keywords : Option (List String))
    (h : max_steps ≤ steps) :
    progress_checker steps max_steps all_actions observation success_keywords =
      ⟨"finish", "Maximum step limit reached", 0.95⟩ ∧
    pyLower "Maximum step limit reached" = "maximum step limit reached" := by
  refine ⟨?_, by decide⟩
  simp [progress_checker, ge_iff_le, h]

/-- Witness for `progress_checker_step_limit`: scenario A of the spec,
`max_steps = 5`, `steps = 5`, with a non-trivial observation and history. -/
theorem progress_checker_step_limit_witness :
    (5 : Int) ≤ 5 ∧
    (progress_checker 5 5 ["click|#a"] ⟨"u", "t", "h", "success", true, "r"⟩ none =
        ⟨"finish", "Maximum step limit reached", 0.95⟩ ∧
      pyLower "Maximum step limit reached" = "maximum step limit reached") :=
  ⟨le_refl 5,
    progress_checker_step_limit 5 5 ["click|#a"] ⟨"u", "t", "h", "success", true, "r"⟩ none
      (le_refl 5)⟩

/-- Claim C3, counterexample: on the first observation of a run
(`last_observation = None`) the code sets `changed = False` — the claim
(and the spec) say `changed = true`.  The `change_reason` is the claimed
`"initial observation"`. -/
theorem observe_initial_not_changed :
    (observe_browser_state "Title: Example Domain" none).changed = false ∧
    (observe_browser_state "Title: Example Domain" none).change_reason = "initial observation" :=
  ⟨rfl, rfl⟩

/-- Claim C3, amended: for every raw page content, the first observation
of a run (no previous observation) has `changed = false` and
`change_reason = "initial observation"`, regardless of the content:
`changed` is initialised to `False` and only the `if last_observation:`
block, which is skipped, could set it. -/
theorem observe_initial_observation (page_content : String) :
    (observe_browser_state page_content none).changed = false ∧
    (observe_browser_state page_content none).change_reason = "initial observation" :=
  ⟨rfl, rfl⟩

/-- Claim C5, counterexample: an output containing the failure tokens
`"error"` and `"failed"` is classified `success`, not `failure`, because
`analyze_tool_result` checks the success indicators first and the output
also contains `"navigated to"`. -/
theorem analyze_tool_result_failure_token_not_failure :
    pyIn "error" (pyLower "Error: navigated to the page but failed") = true ∧
    pyIn "failed" (pyLower "Error: navigated to the page but failed") = true ∧
    analyze_tool_result "Error: navigated to the page but failed" = ActionStatus.success := by
  refine ⟨by decide, by decide, by decide⟩

/-- Claim C5, amended: an Action Executor output containing one of the
failure tokens `"error"`, `"failed"`, `"could not"`, `"timeout"`,
`"not find"` (case-insensitively) is classified a failure by
`analyze_tool_result`, provided it contains none of the success
indicators `"successfully"`, `"completed"`, `"navigated to"`, which are
checked first. -/
theorem analyze_tool_result_failure_tokens (output : String)
    (hs : successWords.any (fun w => pyIn w (pyLower output)) = false)
    (hf : failureWords.any (fun w => pyIn w (pyLower output)) = true) :
    analyze_tool_result output = ActionStatus.failure := by
  simp [analyze_tool_result, hs, hf]

/-- Witness for `analyze_tool_result_failure_tokens`: a plain timeout
message. -/
theorem analyze_tool_result_failure_tokens_witness :
    successWords.any (fun w => pyIn w (pyLower "timeout waiting for page")) = false ∧
    failureWords.any (fun w => pyIn w (pyLower "timeout waiting for page")) = true ∧
    analyze_tool_result "timeout waiting for page" = ActionStatus.failure :=
  ⟨by decide, by decide,
    analyze_tool_result_failure_tokens "timeout waiting for page" (by decide) (by decide)⟩

/-- Claim C6: `categorize_failure` applies its keyword rules in the fixed
priority order timeout → not find/no such element → selector →
navigation → captcha → unknown; in particular any output containing
`"timeout"` (case-insensitively) classifies as `Timeout`, even if it also
contains `"captcha"`. -/
theorem categorize_failure_priority (output : String) :
    (pyIn "timeout" (pyLower output) = true →
      categorize_failure output = FailureType.timeout) ∧
    (pyIn "timeout" (pyLower output) = false →
      ["not find", "no such element"].any (fun w => pyIn w (pyLower output)) = true →
      categorize_failure output = FailureType.element_not_found) ∧
    (pyIn "timeout" (pyLower output) = false →
      ["not find", "no such element"].any (fun w => pyIn w (pyLower output)) = false →
      ["selector", "invalid selector"].any (fun w => pyIn w (pyLower output)) = true →
      categorize_failure output = FailureType.selector_error) ∧
    (pyIn "timeout" (pyLower output) = false →
      ["not find", "no such element"].any (fun w => pyIn w (pyLower output)) = false →
      ["selector", "invalid selector"].any (fun w => pyIn w (pyLower output)) = false →
      pyIn "navigation" (pyLower output) = true →
      categorize_failure output = FailureType.navigation_error) ∧
    (pyIn "timeout" (pyLower output) = false →
      ["not find", "no such element"].any (fun w => pyIn w (pyLower output)) = false →
      ["selector", "invalid selector"].any (fun w => pyIn w (pyLower output)) = false →
      pyIn "navigation" (pyLower output) = false →
      pyIn "captcha" (pyLower output) = true →
      categorize_failure output = FailureType.blocked_by_captcha) ∧
    (pyIn "timeout" (pyLower output) = false →
      ["not find", "no such element"].any (fun w => pyIn w (pyLower output)) = false →
      ["selector", "invalid selector"].any (fun w => pyIn w (pyLower output)) = false →
      pyIn "navigation" (pyLower output) = false →
      pyIn "captcha" (pyLower output) = false →
      categorize_failure output = FailureType.unknown) := by
  refine ⟨?_, ?_, ?_, ?_, ?_, ?_⟩ <;> intros <;> simp [categorize_failure, *]

/-- Witness for `categorize_failure_priority`: scenario C of the spec, an
output containing both `"timeout"` and `"captcha"` classifies as
`Timeout`. -/
theorem categorize_failure_priority_witness :
    pyIn "timeout" (pyLower "Timeout: page blocked by captcha") = true ∧
    pyIn "captcha" (pyLower "Timeout: page blocked by captcha") = true ∧
    categorize_failure "Timeout: page blocked by captcha" = FailureType.timeout :=
  ⟨by decide, by decide,
    (categorize_failure_priority "Timeout: page blocked by captcha").1 (by decide)⟩

/-- Claim C9, counterexample: an action naming an unknown tool is
absorbed as ordinary action-failure data — `execute_action` returns
`Except.ok` with a regular `ExecutionResult` (`success = False`,
`error = "Unknown tool: …"`) and the run state untouched, instead of
surfacing a hard failure (`Except.error`, i.e. an exception) as the claim
says. -/
theorem execute_action_unknown_tool_absorbed :
    execute_action "scroll" "down" ["navigate", "click_element", "read_page"]
        (fun _ _ => Except.ok "done") ⟨0, "", []⟩ =
      Except.ok
        ({ success := false, tool := "scroll", args := "down", output := ""
           error := some "Unknown tool: scroll" }, ⟨0, "", []⟩) := by
  rfl

/-- Claim C9, amended: when the selected action names a tool not in the
tool map, `execute_action` returns an ordinary `ExecutionResult` with
`success = False`, empty output and error `"Unknown tool: <name>"`, and
leaves the state untouched (no step increment, no action record); it does
not raise, so the contract violation is absorbed like any other
action-level failure rather than surfacing as a hard failure. -/
theorem execute_action_unknown_tool (tool args : String) (tool_map : List String)
    (env : String → String → Except String String) (state : V2State)
    (h : tool_map.contains tool = false) :
    execute_action tool args tool_map env state =
      Except.ok
        ({ success := false, tool := tool, args := args, output := ""
           error := some ("Unknown tool: " ++ tool) }, state) := by
  have hc : ¬ (tool_map.contains tool = true) := by rw [h]; decide
  simp only [execute_action]
  rw [if_pos hc]

/-- Helper: `progress_checker` returns `continue` when none of its five
earlier rules fires. -/
lemma progress_checker_continue_of (steps max_steps : Int) (actions : List String)
    (obs : Observation) (kws : Option (List String))
    (h1 : steps < max_steps)
    (h2 : (effectiveKeywords kws).find? (fun kw => pyIn kw (pyLower obs.content_preview)) = none)
    (h3 : obs.changed = true)
    (h4 : ¬ (3 ≤ actions.length ∧ (lastN 3 actions).dedup.length = 1))
    (h5 : ¬ (((max_steps - steps : Int) : ℚ) / ((max_steps : Int) : ℚ) < 0.15)) :
    progress_checker steps max_steps actions obs kws =
      ⟨"continue", "Progress appears normal", 0.8⟩ := by
  simp only [progress_checker, h2, h3]
  rw [if_neg (not_le.mpr h1), if_neg h4, if_neg h5]
  simp

/-- Claim C2, counterexample: the history `["a","a","a","b"]` has a key
occurring 3 times among its last 4 entries, the budget is not exhausted
(`steps = 1 < 10 = max_steps`) and the empty preview contains no success
keyword, yet `progress_checker` returns `continue`: its loop rule only
looks at the last 3 keys, which here are not identical. -/
theorem progress_checker_loop_claim_counterexample :
    (3 ≤ (lastN 4 ["a", "a", "a", "b"]).count "a") ∧
    ((1 : Int) < 10) ∧
    defaultSuccessKeywords.all (fun kw => !(pyIn kw (pyLower ""))) = true ∧
    progress_checker 1 10 ["a", "a", "a", "b"]
        ⟨"unknown", "unknown", "h1", "", true, "page content changed"⟩ none =
      ⟨"continue", "Progress appears normal", 0.8⟩ := by
  refine ⟨by decide, by decide, by decide, ?_⟩
  exact progress_checker_continue_of 1 10 ["a", "a", "a", "b"]
    ⟨"unknown", "unknown", "h1", "", true, "page content changed"⟩ none
    (by decide) (by decide) rfl (by decide) (by norm_num)

/-- Claim C2, amended: (a) when the last 3 action keys are identical
(which entails a key occurring ≥ 3 times in the last 4), the budget is not
exhausted and the preview contains no success keyword,
`progress_checker` returns `retry` or `replan` (never `continue` or
`finish`); (b) the separately defined `track_progress` returns `retry`
under the claim's original condition — some key occurring ≥ 3 times among
the last 4 — whenever `0 ≤ steps < max_steps`. -/
theorem tracker_loop_rules :
    (∀ (steps max_steps : Int) (actions : List String) (obs : Observation)
        (kws : Option (List String)) (k : String),
        steps < max_steps →
        lastN 3 actions = [k, k, k] →
        (effectiveKeywords kws).all (fun kw => !(pyIn kw (pyLower obs.content_preview))) = true →
        (progress_checker steps max_steps actions obs kws).decision = "retry" ∨
          (progress_checker steps max_steps actions obs kws).decision = "replan") ∧
    (∀ (steps max_steps : Int) (actions : List String),
        0 ≤ steps → steps < max_steps →
        4 ≤ actions.length →
        (lastN 4 actions).any (fun a => 3 ≤ (lastN 4 actions).count a) = true →
        (track_progress steps max_steps actions).status = "retry") := by
  constructor
  · intro steps max_steps actions obs kws k hlt hlast hkw
    have hlen3 : 3 ≤ actions.length := by
      have hl := congrArg List.length hlast
      simp only [lastN, List.length_drop, List.length_cons, List.length_nil] at hl
      omega
    have hfind :
        (effectiveKeywords kws).find? (fun kw => pyIn kw (pyLower obs.content_preview)) = none := by
      rw [List.find?_eq_none]
      intro x hx
      have hx2 := (List.all_eq_true.mp hkw) x hx
      simp only [Bool.not_eq_true'] at hx2
      simp [hx2]
    have hded : (lastN 3 actions).dedup.length = 1 := by
      rw [hlast]
      simp
    simp only [progress_checker, hfind]
    rw [if_neg (not_le.mpr hlt)]
    cases hch : obs.changed with
    | false => left; simp [hch]
    | true => right; simp [hch, hlen3, hded]
  · intro steps max_steps actions hge hlt hlen4 hcnt
    simp only [track_progress]
    rw [if_neg (not_le.mpr hlt), if_pos ⟨hlen4, hcnt⟩]

/-- Witness for `tracker_loop_rules`, both parts at concrete inputs. -/
theorem tracker_loop_rules_witness :
    ((1 : Int) < 10) ∧
    lastN 3 ["x", "x", "x"] = ["x", "x", "x"] ∧
    ((progress_checker 1 10 ["x", "x", "x"] ⟨"u", "t", "h", "", true, "r"⟩ none).decision = "retry" ∨
      (progress_checker 1 10 ["x", "x", "x"] ⟨"u", "t", "h", "", true, "r"⟩ none).decision = "replan") ∧
    ((0 : Int) ≤ 1) ∧
    (track_progress 1 10 ["a", "a", "a", "a"]).status = "retry" :=
  ⟨by decide, by decide,
    tracker_loop_rules.1 1 10 ["x", "x", "x"] ⟨"u", "t", "h", "", true, "r"⟩ none "x"
      (by decide) (by decide) (by decide),
    by decide,
    tracker_loop_rules.2 1 10 ["a", "a", "a", "a"] (by decide) (by decide) (by decide) (by decide)⟩

/-- Helper: the candidate loop of `generate_next_action` is the first
plan entry whose key is neither in the executed set nor a repeat of
`last_action` on an unchanged page. -/
lemma selectFromPlan_eq_find? (executed : List String) (last_action : String) (changed : Bool)
    (actions : List (String × String)) :
    selectFromPlan executed last_action changed actions =
      actions.find? (fun p =>
        !(executed.contains (actionKey p.1 p.2) ||
          (actionKey p.1 p.2 == last_action && !changed))) := by
  induction actions with
  | nil => rfl
  | cons head rest ih =>
    obtain ⟨t, a⟩ := head
    simp only [selectFromPlan]
    by_cases h1 : executed.contains (actionKey t a) = true
    · rw [if_pos h1, ih, List.find?_cons_of_neg]
      rw [h1]
      simp
    · rw [if_neg h1]
      by_cases h2 : (actionKey t a == last_action && !changed) = true
      · rw [if_pos h2, ih, List.find?_cons_of_neg]
        rw [h2]
        simp
      · rw [if_neg h2, List.find?_cons_of_pos]
        cases hb1 : executed.contains (actionKey t a) with
        | true => exact absurd hb1 h1
        | false =>
          cases hb2 : (actionKey t a == last_action && !changed) with
          | true => exact absurd hb2 h2
          | false => rfl

/-- Claim C4, counterexample: a previously executed candidate is *not*
selected again when the last observation reports `changed = true` — the
executed-set check comes first and skips it unconditionally, so
`generate_next_action` falls through to the `read_page` fallback. -/
theorem generate_next_action_executed_skipped_despite_change :
    ("click|#a" ∈ ["click|#a"]) ∧
    generate_next_action [("click", "#a")] ["click|#a"] "click|#a" true =
      ⟨"read_page", "", "Re-observing page state"⟩ := by
  exact ⟨by decide, by decide⟩

/-- Claim C4, amended: `generate_next_action` skips a candidate if and
only if its key `tool|args` is already in the executed set, *or* the key
equals `last_action` and the last observation reports `changed = false`;
an already-executed action is never re-selected, even when
`changed = true`. -/
theorem generate_next_action_skip_rule (actions : List (String × String))
    (executed : List String) (last_action : String) (changed : Bool) :
    generate_next_action actions executed last_action changed =
      if actions.isEmpty then
        ⟨"finish_task", "No remaining actions to execute", "Action plan exhausted"⟩
      else
        match actions.find? (fun p =>
            !(executed.contains (actionKey p.1 p.2) ||
              (actionKey p.1 p.2 == last_action && !changed))) with
        | some (t, a) => ⟨t, a, "Next planned action"⟩
        | none => ⟨"read_page", "", "Re-observing page state"⟩ := by
  simp only [generate_next_action, selectFromPlan_eq_find?]

/-- Claim C7: the content fingerprint is a deterministic function of the
first 3000 characters of the raw page content — any two inputs agreeing
on their first 3000 characters produce equal `content_hash` values,
whatever the previous observations were; identical inputs are the
`pySlice c 3000 = pySlice c 3000` special case. -/
theorem content_hash_deterministic (c1 c2 : String) (l1 l2 : Option Observation)
    (h : pySlice c1 3000 = pySlice c2 3000) :
    (observe_browser_state c1 l1).content_hash = (observe_browser_state c2 l2).content_hash := by
  show hash_text (pySlice c1 3000) = hash_text (pySlice c2 3000)
  exact congrArg hash_text h

/-- Witness for `content_hash_deterministic`: two calls on identical
input, with different previous observations, agree. -/
theorem content_hash_deterministic_witness :
    pySlice "URL: https://a\nbody" 3000 = pySlice "URL: https://a\nbody" 3000 ∧
    (observe_browser_state "URL: https://a\nbody" none).content_hash =
      (observe_browser_state "URL: https://a\nbody"
        (some ⟨"u", "t", "h", "p", false, "r"⟩)).content_hash :=
  ⟨rfl,
    content_hash_deterministic "URL: https://a\nbody" "URL: https://a\nbody" none
      (some ⟨"u", "t", "h", "p", false, "r"⟩) rfl⟩

/-- Claim C8: in the agent.py loop, `consecutive_failures` is reset to 0
by an action classified a success, incremented by exactly 1 by an action
classified a failure, and once it has reached the threshold 3 the run
issues no further action (the router ends the graph from any such
state). -/
theorem consecutive_failures_protocol :
    (∀ (st : GraphState) (tool output : String),
        st.last_tool_call = some tool →
        analyze_tool_result output = ActionStatus.success →
        (tool_execution_node st output).consecutive_failures = 0) ∧
    (∀ (st : GraphState) (tool output : String),
        st.last_tool_call = some tool →
        analyze_tool_result output = ActionStatus.failure →
        (tool_execution_node st output).consecutive_failures = st.consecutive_failures + 1) ∧
    (∀ (st : GraphState) (inputs : List (Option String × String)),
        3 ≤ st.consecutive_failures → (run_graph st inputs).2 = 0) := by
  refine ⟨?_, ?_, ?_⟩
  · intro st tool output hlt ha
    simp [tool_execution_node, hlt, ha]
  · intro st tool output hlt ha
    simp [tool_execution_node, hlt, ha]
  · intro st inputs h3
    cases inputs with
    | nil => rfl
    | cons p rest =>
      obtain ⟨decision, output⟩ := p
      have hcf : (agent_node st decision).consecutive_failures = st.consecutive_failures := by
        simp only [agent_node]
        split_ifs <;> rfl
      have hroute : router (agent_node st decision) = Route.stop := by
        simp only [router]
        split_ifs with hA hB
        · rfl
        · rfl
        · exact absurd (hcf ▸ h3) (not_le.mpr (not_le.mp hB))
      simp [run_graph, hroute]

/-- Witness for `consecutive_failures_protocol`: a success output resets
the counter, a failure output increments it, and a state at the threshold
issues no action. -/
theorem consecutive_failures_protocol_witness :
    ((⟨2, 20, 1, some "click_element", [], []⟩ : GraphState).last_tool_call =
        some "click_element") ∧
    analyze_tool_result "Successfully clicked the button" = ActionStatus.success ∧
    (tool_execution_node ⟨2, 20, 1, some "click_element", [], []⟩
        "Successfully clicked the button").consecutive_failures = 0 ∧
    analyze_tool_result "Error: could not click element" = ActionStatus.failure ∧
    (tool_execution_node ⟨2, 20, 1, some "click_element", [], []⟩
        "Error: could not click element").consecutive_failures = 1 + 1 ∧
    (3 : Int) ≤ (⟨5, 20, 3, some "navigate", [], []⟩ : GraphState).consecutive_failures ∧
    (run_graph ⟨5, 20, 3, some "navigate", [], []⟩ [(some "navigate", "navigated to x")]).2 = 0 :=
  ⟨rfl, by decide,
    consecutive_failures_protocol.1 ⟨2, 20, 1, some "click_element", [], []⟩ "click_element"
      "Successfully clicked the button" rfl (by decide),
    by decide,
    consecutive_failures_protocol.2.1 ⟨2, 20, 1, some "click_element", [], []⟩ "click_element"
      "Error: could not click element" rfl (by decide),
    by decide,
    consecutive_failures_protocol.2.2 ⟨5, 20, 3, some "navigate", [], []⟩
      [(some "navigate", "navigated to x")] (by decide)⟩

/-- Claim C10: for every run state with `steps >= 0`, `progress_checker`
is total and never divides by zero: the division by `max_steps` in the
low-remaining-budget rule is only reached when `steps < max_steps`, which
with `steps >= 0` forces `max_steps >= 1`.  `progress_checkerChecked`
marks the division with a `ZeroDivisionError` guard and is shown to agree
with the total model. -/
theorem progress_checker_no_division_by_zero (steps max_steps : Int) (all_actions : List String)
    (observation : Observation) (success_keywords : Option (List String))
    (h : 0 ≤ steps) :
    progress_checkerChecked steps max_steps all_actions observation success_keywords =
      some (progress_checker steps max_steps all_actions observation success_keywords) := by
  simp only [progress_checker, progress_checkerChecked]
  by_cases h1 : steps ≥ max_steps
  · rw [if_pos h1, if_pos h1]
  · rw [if_neg h1, if_neg h1]
    cases hfind : (effectiveKeywords success_keywords).find?
        (fun kw => pyIn kw (pyLower observation.content_preview)) with
    | some kw => rfl
    | none =>
      by_cases h2 : (!observation.changed) = true
      · rw [if_pos h2, if_pos h2]
      · rw [if_neg h2, if_neg h2]
        by_cases h3 : 3 ≤ all_actions.length ∧ (lastN 3 all_actions).dedup.length = 1
        · rw [if_pos h3, if_pos h3]
        · rw [if_neg h3, if_neg h3]
          have hz : ¬ (max_steps = 0) := by omega
          rw [if_neg hz]
          by_cases h4 : ((max_steps - steps : Int) : ℚ) / ((max_steps : Int) : ℚ) < 0.15
          · rw [if_pos h4, if_pos h4]
          · rw [if_neg h4, if_neg h4]

/-- Witness for `progress_checker_no_division_by_zero`, at a state that
actually reaches the division (`steps = 0`, `max_steps = 1`: remaining
ratio 1, no rule fires before the budget rule). -/
theorem progress_checker_no_division_by_zero_witness :
    ((0 : Int) ≤ 0) ∧
    progress_checkerChecked 0 1 [] ⟨"u", "t", "h", "", true, "r"⟩ none =
      some (progress_checker 0 1 [] ⟨"u", "t", "h", "", true, "r"⟩ none) :=
  ⟨le_refl 0,
    progress_checker_no_division_by_zero 0 1 [] ⟨"u", "t", "h", "", true, "r"⟩ none (le_refl 0)⟩

/-- Witness for `execute_action_unknown_tool`. -/
theorem execute_action_unknown_tool_witness :
    (["navigate", "read_page"].contains "type_text" = false) ∧
    execute_action "type_text" "#q|hello" ["navigate", "read_page"]
        (fun _ _ => Except.error "boom") ⟨3, "navigate|url", ["navigate|url"]⟩ =
      Except.ok
        ({ success := false, tool := "type_text", args := "#q|hello", output := ""
           error := some ("Unknown tool: " ++ "type_text") }, ⟨3, "navigate|url", ["navigate|url"]⟩) :=
  ⟨by decide,
    execute_action_unknown_tool "type_text" "#q|hello" ["navigate", "read_page"]
      (fun _ _ => Except.error "boom") ⟨3, "navigate|url", ["navigate|url"]⟩ (by decide)⟩

end BrowserGPT
